import Mathlib

/-!
Verification development for the media-mix simulator's calculation core
(`src/modules/calculations.py`, `src/modules/insights.py`,
`src/modules/constants.py`), shallowly embedded over `ℚ`.

Python floats are modelled as exact rationals; Python's `round(x, n)`
(banker's rounding) is `pyRound`, Python's `int(x)` (truncation toward
zero) is `pyInt`; a Python function that can `raise` is modelled as
`Except String`.
-/

namespace MediaMix

/-- Python `round` to an integer: round half to even (banker's rounding). -/
def roundHalfEven (q : ℚ) : ℤ :=
  let f := ⌊q⌋
  if q - f < 1/2 then f
  else if (1 : ℚ)/2 < q - f then f + 1
  else if f % 2 = 0 then f else f + 1

/-- Python `round(q, n)` for `n ≥ 0`, as a rational. -/
def pyRound (q : ℚ) (n : ℕ) : ℚ :=
  (roundHalfEven (q * 10 ^ n) : ℚ) / 10 ^ n

/-- Python `int(q)`: truncation toward zero. -/
def pyInt (q : ℚ) : ℤ :=
  if 0 ≤ q then ⌊q⌋ else ⌈q⌉

/-!
Efficiency grader: `calculate_efficiency_grade` from
`src/modules/calculations.py` lines 55-108.  The source accumulates a
score through three if-chains and then maps the score to a letter; the
three chains are embedded as `roasScore`, `convScore`, `cpaScore`.
-/

/-- ROAS contribution to the score (calculations.py lines 69-77). -/
def roasScore (avg_roas : ℚ) : ℕ :=
  if avg_roas ≥ 300 then 40
  else if avg_roas ≥ 200 then 30
  else if avg_roas ≥ 150 then 20
  else if avg_roas ≥ 100 then 10
  else 0

/-- Conversion-volume contribution to the score (calculations.py lines 79-87). -/
def convScore (total_conversions : ℚ) : ℕ :=
  if total_conversions ≥ 500 then 30
  else if total_conversions ≥ 300 then 25
  else if total_conversions ≥ 150 then 20
  else if total_conversions ≥ 50 then 10
  else 0

/-- CPA contribution to the score, awarded only when `avg_cpa > 0`
(calculations.py lines 89-98). -/
def cpaScore (avg_cpa : ℚ) : ℕ :=
  if avg_cpa > 0 then
    if avg_cpa ≤ 30000 then 30
    else if avg_cpa ≤ 40000 then 25
    else if avg_cpa ≤ 50000 then 20
    else if avg_cpa ≤ 70000 then 10
    else 0
  else 0

/-- The accumulated score of `calculate_efficiency_grade`. -/
def effScore (avg_cpa avg_roas total_conversions : ℚ) : ℕ :=
  roasScore avg_roas + convScore total_conversions + cpaScore avg_cpa

/-- The grade letter from the score (calculations.py lines 100-108). -/
def gradeOfScore (score : ℕ) : String :=
  if score ≥ 80 then "S"
  else if score ≥ 60 then "A"
  else if score ≥ 40 then "B"
  else "C"

/-- `calculate_efficiency_grade` (calculations.py lines 55-108). -/
def calculate_efficiency_grade (avg_cpa avg_roas total_conversions : ℚ) : String :=
  gradeOfScore (effScore avg_cpa avg_roas total_conversions)

/-- Ordinal rank of a grade letter under C < B < A < S. -/
def gradeRank (g : String) : ℕ :=
  if g = "S" then 3 else if g = "A" then 2 else if g = "B" then 1 else 0

/-!
Budget-scale competition tiers:
`calculate_budget_competition_factor` (calculations.py lines 120-139) and
`apply_budget_adjustment` (calculations.py lines 454-472).
-/

/-- `calculate_budget_competition_factor` (calculations.py lines 120-139):
strict `<` tier boundaries. -/
def calculate_budget_competition_factor (budget : ℚ) : ℚ :=
  if budget < 10000000 then 0.90
  else if budget < 50000000 then 1.00
  else if budget < 100000000 then 1.10
  else 1.20

/-- `apply_budget_adjustment` (calculations.py lines 454-472): inclusive
`≤` tier boundaries, result truncated to an integer by Python `int`. -/
def apply_budget_adjustment (cpc budget : ℚ) : ℤ :=
  if budget ≤ 10000000 then pyInt (cpc * 0.9)
  else if budget ≤ 50000000 then pyInt cpc
  else if budget ≤ 100000000 then pyInt (cpc * 1.1)
  else pyInt (cpc * 1.2)

/-!
Performance calculator: `calculate_performance` (calculations.py lines
176-213) and `calculate_media_performance` (calculations.py lines 248-297).
A channel dictionary is embedded as the `Media` structure holding the
eight keys the calculation core reads (`name`, `category`, `budget_ratio`,
`cpc`, `ctr`, `cvr`, `revenue_per_cv`, `adjustment`).
-/

structure AdjustedMetrics where
  CTR : ℚ
  CPC : ℚ
  CVR : ℚ
  deriving DecidableEq

structure Media where
  name : String
  category : String
  budget_ratio : ℚ
  cpc : ℚ
  ctr : ℚ
  cvr : ℚ
  revenue_per_cv : ℚ
  adjustment : ℚ
  deriving DecidableEq

/-- The dictionary returned by `calculate_performance` (calculations.py
lines 205-213): every field is rounded at the output boundary. -/
structure PerfResult where
  impressions : ℚ
  clicks : ℚ
  conversions : ℚ
  cpa : ℚ
  ctr : ℚ
  cvr : ℚ
  cpc : ℚ
  deriving DecidableEq

/-- The unrounded click count of `calculate_performance` (line 200). -/
def perfClicks (budget : ℚ) (m : AdjustedMetrics) : ℚ := budget / m.CPC

/-- The unrounded impression count of `calculate_performance` (line 201). -/
def perfImpressions (budget : ℚ) (m : AdjustedMetrics) : ℚ :=
  perfClicks budget m / m.CTR

/-- The unrounded conversion count of `calculate_performance` (line 202). -/
def perfConversions (budget : ℚ) (m : AdjustedMetrics) : ℚ :=
  perfClicks budget m * m.CVR

/-- The unrounded CPA of `calculate_performance` (line 203). -/
def perfCpa (budget : ℚ) (m : AdjustedMetrics) : ℚ :=
  if 0 < perfConversions budget m then budget / perfConversions budget m else 0

/-- `calculate_performance` (calculations.py lines 176-213): validates the
metrics, then computes the funnel and rounds at the output boundary. -/
def calculate_performance (budget : ℚ) (m : AdjustedMetrics) :
    Except String PerfResult :=
  if m.CPC ≤ 0 then .error "CPC must be greater than 0"
  else if m.CTR ≤ 0 then .error "CTR must be greater than 0"
  else if m.CVR < 0 then .error "CVR must be non-negative"
  else if budget ≤ 0 then .error "Budget must be greater than 0"
  else .ok
    { impressions := pyRound (perfImpressions budget m) 0
      clicks := pyRound (perfClicks budget m) 0
      conversions := pyRound (perfConversions budget m) 2
      cpa := pyRound (perfCpa budget m) 0
      ctr := pyRound (m.CTR * 100) 2
      cvr := pyRound (m.CVR * 100) 2
      cpc := pyRound m.CPC 0 }

/-- The dictionary `{**media, **performance}` returned by
`calculate_media_performance` (calculations.py lines 282-297): the input
channel's eight keys followed by the twelve computed performance keys. -/
structure MediaResult where
  name : String
  category : String
  budget_ratio : ℚ
  cpc : ℚ
  ctr : ℚ
  cvr : ℚ
  revenue_per_cv : ℚ
  adjustment : ℚ
  media_budget : ℚ
  estimated_impressions : ℚ
  estimated_clicks : ℚ
  cpm : ℚ
  estimated_conversions : ℚ
  estimated_conversions_adjusted : ℚ
  cpa : ℚ
  cpa_adjusted : ℚ
  total_revenue : ℚ
  total_revenue_adjusted : ℚ
  roas : ℚ
  roas_adjusted : ℚ
  deriving DecidableEq

/-- The key set of a successful `calculate_media_performance` result, in
Python dict insertion order. -/
def MediaResult.keys : List String :=
  ["name", "category", "budget_ratio", "cpc", "ctr", "cvr",
   "revenue_per_cv", "adjustment",
   "media_budget", "estimated_impressions", "estimated_clicks", "cpm",
   "estimated_conversions", "estimated_conversions_adjusted",
   "cpa", "cpa_adjusted", "total_revenue", "total_revenue_adjusted",
   "roas", "roas_adjusted"]

/-- `calculate_media_performance` (calculations.py lines 248-297). -/
def calculate_media_performance (media : Media) (total_budget : ℚ) :
    Except String MediaResult :=
  if total_budget ≤ 0 then .error "total budget must be greater than 0"
  else if media.budget_ratio < 0 then .error "budget ratio must be non-negative"
  else if media.cpc ≤ 0 then .error "CPC must be greater than 0"
  else if media.ctr ≤ 0 then .error "CTR must be greater than 0"
  else
    let media_budget := total_budget * (media.budget_ratio / 100)
    let estimated_clicks := media_budget / media.cpc
    let estimated_impressions := estimated_clicks / (media.ctr / 100)
    let cpm := if 0 < estimated_impressions
      then media_budget / estimated_impressions * 1000 else 0
    let estimated_conversions := estimated_clicks * (media.cvr / 100)
    let cpa := if 0 < estimated_conversions
      then media_budget / estimated_conversions else 0
    let total_revenue := estimated_conversions * media.revenue_per_cv
    let roas := if 0 < media_budget then total_revenue / media_budget * 100 else 0
    let eca := estimated_conversions * (1 + media.adjustment / 100)
    let cpa_adjusted := if 0 < eca then media_budget / eca else 0
    let total_revenue_adjusted := eca * media.revenue_per_cv
    let roas_adjusted := if 0 < media_budget
      then total_revenue_adjusted / media_budget * 100 else 0
    .ok
      { name := media.name
        category := media.category
        budget_ratio := media.budget_ratio
        cpc := media.cpc
        ctr := media.ctr
        cvr := media.cvr
        revenue_per_cv := media.revenue_per_cv
        adjustment := media.adjustment
        media_budget := media_budget
        estimated_impressions := estimated_impressions
        estimated_clicks := estimated_clicks
        cpm := cpm
        estimated_conversions := estimated_conversions
        estimated_conversions_adjusted := eca
        cpa := cpa
        cpa_adjusted := cpa_adjusted
        total_revenue := total_revenue
        total_revenue_adjusted := total_revenue_adjusted
        roas := roas
        roas_adjusted := roas_adjusted }

/-!
Scenario generator: `generate_scenarios` (calculations.py lines 300-385).
-/

/-- The zeroed, error-flagged placeholder dictionary built in the
`except` handler of `generate_scenarios` (calculations.py lines 360-380). -/
structure ErrorMedia where
  name : String
  category : String
  budget_ratio : ℚ
  media_budget : ℚ
  cpm : ℚ
  cpc : ℚ
  ctr : ℚ
  cvr : ℚ
  estimated_impressions : ℚ
  estimated_clicks : ℚ
  estimated_conversions : ℚ
  estimated_conversions_adjusted : ℚ
  cpa_adjusted : ℚ
  revenue_per_cv : ℚ
  total_revenue_adjusted : ℚ
  roas_adjusted : ℚ
  error : Bool
  error_message : String
  deriving DecidableEq

/-- The key set of the error placeholder, in Python dict insertion order
(calculations.py lines 361-380). -/
def ErrorMedia.keys : List String :=
  ["name", "category", "budget_ratio", "media_budget", "cpm",
   "cpc", "ctr", "cvr",
   "estimated_impressions", "estimated_clicks", "estimated_conversions",
   "estimated_conversions_adjusted", "cpa_adjusted", "revenue_per_cv",
   "total_revenue_adjusted", "roas_adjusted", "error", "error_message"]

/-- The placeholder for a channel whose computation raised `msg`
(calculations.py lines 360-380). -/
def errorMediaOf (media : Media) (msg : String) : ErrorMedia :=
  { name := media.name
    category := media.category
    budget_ratio := media.budget_ratio
    media_budget := 0
    cpm := 0
    cpc := media.cpc
    ctr := media.ctr
    cvr := media.cvr
    estimated_impressions := 0
    estimated_clicks := 0
    estimated_conversions := 0
    estimated_conversions_adjusted := 0
    cpa_adjusted := 0
    revenue_per_cv := media.revenue_per_cv
    total_revenue_adjusted := 0
    roas_adjusted := 0
    error := true
    error_message := "calculation failed: " ++ msg }

/-- One entry of a scenario list: either a computed channel dictionary or
the error placeholder. -/
inductive ScenarioEntry where
  | ok (r : MediaResult)
  | err (e : ErrorMedia)
  deriving DecidableEq

/-- The key set of an entry's dictionary. -/
def ScenarioEntry.keys : ScenarioEntry → List String
  | .ok _ => MediaResult.keys
  | .err _ => ErrorMedia.keys

/-- Whether an entry is the error placeholder. -/
def ScenarioEntry.isErr : ScenarioEntry → Bool
  | .ok _ => false
  | .err _ => true

/-- The conservative variant of a computed channel (calculations.py lines
325-340): conversions re-weighted by `1 - s/100`, and `cpa_adjusted`,
`total_revenue_adjusted`, `roas_adjusted` re-derived from the new value. -/
def conservativeOf (r : MediaResult) (s : ℚ) : MediaResult :=
  let eca := r.estimated_conversions_adjusted * (1 - s / 100)
  let tra := eca * r.revenue_per_cv
  { r with
    estimated_conversions_adjusted := eca
    cpa_adjusted := if 0 < eca then r.media_budget / eca else 0
    total_revenue_adjusted := tra
    roas_adjusted := if 0 < r.media_budget then tra / r.media_budget * 100 else 0 }

/-- The aggressive variant of a computed channel (calculations.py lines
342-357): conversions re-weighted by `1 + s/100`, and the dependents
re-derived from the new value. -/
def aggressiveOf (r : MediaResult) (s : ℚ) : MediaResult :=
  let eca := r.estimated_conversions_adjusted * (1 + s / 100)
  let tra := eca * r.revenue_per_cv
  { r with
    estimated_conversions_adjusted := eca
    cpa_adjusted := if 0 < eca then r.media_budget / eca else 0
    total_revenue_adjusted := tra
    roas_adjusted := if 0 < r.media_budget then tra / r.media_budget * 100 else 0 }

/-- What one loop iteration of `generate_scenarios` appends to the base,
conservative and aggressive lists (calculations.py lines 318-383). -/
def processMedia (total_budget s : ℚ) (media : Media) :
    ScenarioEntry × ScenarioEntry × ScenarioEntry :=
  match calculate_media_performance media total_budget with
  | .ok r => (.ok r, .ok (conservativeOf r s), .ok (aggressiveOf r s))
  | .error msg =>
      let e := ScenarioEntry.err (errorMediaOf media msg)
      (e, e, e)

/-- The scenario dictionary returned by `generate_scenarios`. -/
structure Scenarios where
  conservative : List ScenarioEntry
  base : List ScenarioEntry
  aggressive : List ScenarioEntry
  deriving DecidableEq

/-- `generate_scenarios` (calculations.py lines 300-385): each channel
contributes exactly one entry to each of the three lists, in input order;
a failed channel contributes the error placeholder to all three. -/
def generate_scenarios (selected_media : List Media)
    (total_budget scenario_adjustment : ℚ) : Scenarios :=
  { conservative :=
      selected_media.map fun m => (processMedia total_budget scenario_adjustment m).2.1
    base :=
      selected_media.map fun m => (processMedia total_budget scenario_adjustment m).1
    aggressive :=
      selected_media.map fun m => (processMedia total_budget scenario_adjustment m).2.2 }

/-!
Adjustment engine: `calculate_seasonality` (calculations.py lines 16-36)
and `apply_adjustments` (calculations.py lines 142-173).  The tables
`SEASONALITY_COMMON` and `INDUSTRY_SEASON_WEIGHT` are data loaded from
`benchmarks.json` at run time (constants.py lines 74-78), so both
functions are parameterised by the tables; a Python `dict.get` miss is an
`Option` returning `none`.
-/

/-- One entry of `INDUSTRY_SEASON_WEIGHT`: the four keys the code reads. -/
structure IndustrySeason where
  high_months : List ℕ
  low_months : List ℕ
  high_multiplier : ℚ
  low_multiplier : ℚ
  deriving DecidableEq

/-- `calculate_seasonality` (calculations.py lines 16-36): the common
monthly factor, weighted by the industry's high or low multiplier when the
month is in the respective set; 1.0 defaults on a table miss. -/
def calculate_seasonality (seasonality_common : ℕ → Option ℚ)
    (industry_season_weight : String → Option IndustrySeason)
    (month : ℕ) (industry : String) : ℚ :=
  let season_factor := (seasonality_common month).getD 1
  match industry_season_weight industry with
  | none => season_factor
  | some w =>
      if month ∈ w.high_months then season_factor * w.high_multiplier
      else if month ∈ w.low_months then season_factor * w.low_multiplier
      else season_factor

/-- `apply_adjustments` (calculations.py lines 142-173): seasonal factor on
CTR and CVR, budget-competition factor on CPC. -/
def apply_adjustments (seasonality_common : ℕ → Option ℚ)
    (industry_season_weight : String → Option IndustrySeason)
    (industry : String) (month : ℕ) (budget : ℚ)
    (base_metrics : AdjustedMetrics) : AdjustedMetrics :=
  let sf0 := (seasonality_common month).getD 1
  let season_factor :=
    match industry_season_weight industry with
    | none => sf0
    | some w =>
        if month ∈ w.high_months then sf0 * w.high_multiplier
        else if month ∈ w.low_months then sf0 * w.low_multiplier
        else sf0
  let competition_factor := calculate_budget_competition_factor budget
  { CTR := base_metrics.CTR * season_factor
    CVR := base_metrics.CVR * season_factor
    CPC := base_metrics.CPC * competition_factor }

/-!
Recommendation engine: `generate_recommendations` (insights.py lines
9-125), over the base scenario list.  Advisory messages are embedded as
structured records carrying the numbers the source interpolates into the
message strings.  `m.get(key, default)` over the two dictionary shapes is
embedded as a getter on `ScenarioEntry`; the error placeholder lacks the
keys `cpa` and `roas`, so those getters return the default 0 on it.
-/

def RISK_RATIO_THRESHOLD : ℚ := 50

def ScenarioEntry.getCpa : ScenarioEntry → ℚ
  | .ok r => r.cpa
  | .err _ => 0

def ScenarioEntry.getRoas : ScenarioEntry → ℚ
  | .ok r => r.roas
  | .err _ => 0

def ScenarioEntry.getBudgetRatio : ScenarioEntry → ℚ
  | .ok r => r.budget_ratio
  | .err e => e.budget_ratio

def ScenarioEntry.getName : ScenarioEntry → String
  | .ok r => r.name
  | .err e => e.name

def ScenarioEntry.getCvr : ScenarioEntry → ℚ
  | .ok r => r.cvr
  | .err e => e.cvr

def ScenarioEntry.getCpc : ScenarioEntry → ℚ
  | .ok r => r.cpc
  | .err e => e.cpc

def ScenarioEntry.getConvAdj : ScenarioEntry → ℚ
  | .ok r => r.estimated_conversions_adjusted
  | .err e => e.estimated_conversions_adjusted

/-- `m.get('revenue_per_conversion', 0)` (insights.py line 97): neither
dictionary shape has that key (both carry `revenue_per_cv`), so the
default 0 is always returned. -/
def ScenarioEntry.getRevenuePerConversion : ScenarioEntry → ℚ
  | _ => 0

/-- A structured advisory: one constructor per rule of
`generate_recommendations`, carrying the numbers of its message. -/
inductive Rec where
  | shiftInfo (worst_name best_name : String)
      (worst_ratio shift_ratio additional_conversions cpa_improvement : ℚ)
  | scaleInfo (name : String) (cpa ratio add_cv add_cpa_impact : ℚ)
  | concentrationWarning (name : String) (ratio : ℚ)
  | lowRoasWarning (name : String) (roas needed_revenue revenue_gap : ℚ)
  | volumeInfo (total_conversions new_budget estimated_new_cv : ℚ)
  deriving DecidableEq

/-- Whether an advisory is the concentration-risk dependency warning. -/
def Rec.isConcentration : Rec → Bool
  | .concentrationWarning _ _ => true
  | _ => false

/-- The efficiency-shift rule (insights.py lines 28-54). -/
def shiftRule (media_data sorted_media : List ScenarioEntry) (budget : ℚ) :
    List Rec :=
  match sorted_media with
  | best :: m1 :: rest =>
      let worst := (m1 :: rest).getLastD m1
      if best.getCpa * 1.5 < worst.getCpa then
        let shift_ratio := worst.getBudgetRatio * 0.1
        let shift_budget := budget * (shift_ratio / 100)
        let best_cvr := best.getCvr / 100
        let best_cpc := best.getCpc
        if 0 < best_cpc ∧ 0 < best_cvr then
          let additional_clicks := shift_budget / best_cpc
          let additional_conversions := additional_clicks * best_cvr
          let current_total_cv := (media_data.map (fun m => m.getConvAdj)).sum
          let current_avg_cpa :=
            if 0 < current_total_cv then budget / current_total_cv else 0
          let new_total_cv := current_total_cv + additional_conversions
          let new_avg_cpa := if 0 < new_total_cv then budget / new_total_cv else 0
          [Rec.shiftInfo worst.getName best.getName worst.getBudgetRatio
            shift_ratio additional_conversions (current_avg_cpa - new_avg_cpa)]
        else []
      else []
  | _ => []

/-- The underweighted-efficient-channel rule (insights.py lines 56-77). -/
def scaleRule (sorted_media : List ScenarioEntry) (budget : ℚ) : List Rec :=
  (sorted_media.take 2).filterMap fun m =>
    let ratio := m.getBudgetRatio
    let cpa := m.getCpa
    let cvr := m.getCvr / 100
    let cpc := m.getCpc
    if ratio < 20 ∧ 0 < cpa then
      if 0 < cpc ∧ 0 < cvr then
        let increase_budget := budget * ((10 : ℚ) / 100)
        let add_clicks := increase_budget / cpc
        let add_cv := add_clicks * cvr
        let add_cpa_impact := if 0 < add_cv then increase_budget / add_cv else 0
        some (Rec.scaleInfo m.getName cpa ratio add_cv add_cpa_impact)
      else none
    else none

/-- The concentration-risk rule (insights.py lines 79-89): one dependency
warning per channel whose ratio exceeds `RISK_RATIO_THRESHOLD`. -/
def concentrationRule (media_data : List ScenarioEntry) : List Rec :=
  (media_data.filter fun m => RISK_RATIO_THRESHOLD < m.getBudgetRatio).map
    fun m => Rec.concentrationWarning m.getName m.getBudgetRatio

/-- The low-ROAS rule (insights.py lines 91-109). -/
def lowRoasRule (media_data : List ScenarioEntry) : List Rec :=
  (media_data.filter fun m => 0 < m.getRoas ∧ m.getRoas < 150).map fun m =>
    let cpa := m.getCpa
    let needed_revenue := cpa * 1.5
    let current_revenue := m.getRevenuePerConversion
    Rec.lowRoasWarning m.getName m.getRoas needed_revenue
      (needed_revenue - current_revenue)

/-- The volume-insufficiency rule (insights.py lines 111-123). -/
def volumeRule (media_data : List ScenarioEntry) (budget : ℚ) : List Rec :=
  let total_conversions := (media_data.map (fun m => m.getConvAdj)).sum
  if 0 < total_conversions ∧ total_conversions < 200 then
    [Rec.volumeInfo total_conversions (budget * 1.3) (total_conversions * 1.3)]
  else []

/-- `generate_recommendations` (insights.py lines 9-125): the five rules
fire independently, appended in source order; `sorted_media` is the
CPA-positive channels, stably sorted by ascending CPA (Python `sorted`). -/
def generate_recommendations (scenarios : Scenarios) (budget : ℚ) : List Rec :=
  let media_data := scenarios.base
  if media_data = [] then []
  else
    let sorted_media :=
      List.mergeSort (media_data.filter fun m => 0 < m.getCpa)
        (fun a b => decide (a.getCpa ≤ b.getCpa))
    shiftRule media_data sorted_media budget ++ scaleRule sorted_media budget ++
      concentrationRule media_data ++ lowRoasRule media_data ++
      volumeRule media_data budget

/-! Helper lemmas about the efficiency grader. -/

lemma gradeOfScore_S_iff (s : ℕ) : gradeOfScore s = "S" ↔ 80 ≤ s := by
  unfold gradeOfScore
  split_ifs with h1 h2 h3 <;> simp_all

lemma gradeOfScore_A_iff (s : ℕ) : gradeOfScore s = "A" ↔ 60 ≤ s ∧ s < 80 := by
  unfold gradeOfScore
  split_ifs with h1 h2 h3 <;> simp_all <;> omega

lemma gradeOfScore_B_iff (s : ℕ) : gradeOfScore s = "B" ↔ 40 ≤ s ∧ s < 60 := by
  unfold gradeOfScore
  split_ifs with h1 h2 h3 <;> simp_all <;> omega

lemma gradeOfScore_C_iff (s : ℕ) : gradeOfScore s = "C" ↔ s < 40 := by
  unfold gradeOfScore
  split_ifs with h1 h2 h3 <;> simp_all <;> omega

lemma roasScore_mono {r r' : ℚ} (h : r ≤ r') : roasScore r ≤ roasScore r' := by
  unfold roasScore
  split_ifs <;> first | omega | (exfalso; linarith)

lemma convScore_mono {c c' : ℚ} (h : c ≤ c') : convScore c ≤ convScore c' := by
  unfold convScore
  split_ifs <;> first | omega | (exfalso; linarith)

lemma cpaScore_anti {a a' : ℚ} (h0 : 0 < a') (h : a' ≤ a) :
    cpaScore a ≤ cpaScore a' := by
  unfold cpaScore
  split_ifs <;> first | omega | (exfalso; linarith)

lemma gradeRank_gradeOfScore_mono {s t : ℕ} (h : s ≤ t) :
    gradeRank (gradeOfScore s) ≤ gradeRank (gradeOfScore t) := by
  unfold gradeOfScore
  split_ifs <;> first | decide | (exfalso; omega)

/-- C4: `calculate_efficiency_grade` grades by additive scoring — ROAS
points (≥300→40, ≥200→30, ≥150→20, ≥100→10, else 0) plus volume points
(≥500→30, ≥300→25, ≥150→20, ≥50→10, else 0) plus CPA points awarded only
when `avg_cpa > 0` (≤30000→30, ≤40000→25, ≤50000→20, ≤70000→10, else 0),
with grade S iff score ≥ 80, A iff 60 ≤ score < 80, B iff 40 ≤ score < 60,
else C; and `avg_roas = 320`, `total_conversions = 600`, `avg_cpa = 25000`
scores 100 and grades S. -/
theorem c4_efficiency_grade (a r c : ℚ) :
    calculate_efficiency_grade a r c
      = gradeOfScore (roasScore r + convScore c + cpaScore a) ∧
    (300 ≤ r → roasScore r = 40) ∧
    (200 ≤ r ∧ r < 300 → roasScore r = 30) ∧
    (150 ≤ r ∧ r < 200 → roasScore r = 20) ∧
    (100 ≤ r ∧ r < 150 → roasScore r = 10) ∧
    (r < 100 → roasScore r = 0) ∧
    (500 ≤ c → convScore c = 30) ∧
    (300 ≤ c ∧ c < 500 → convScore c = 25) ∧
    (150 ≤ c ∧ c < 300 → convScore c = 20) ∧
    (50 ≤ c ∧ c < 150 → convScore c = 10) ∧
    (c < 50 → convScore c = 0) ∧
    (a ≤ 0 → cpaScore a = 0) ∧
    (0 < a ∧ a ≤ 30000 → cpaScore a = 30) ∧
    (30000 < a ∧ a ≤ 40000 → cpaScore a = 25) ∧
    (40000 < a ∧ a ≤ 50000 → cpaScore a = 20) ∧
    (50000 < a ∧ a ≤ 70000 → cpaScore a = 10) ∧
    (70000 < a → cpaScore a = 0) ∧
    (calculate_efficiency_grade a r c = "S" ↔ 80 ≤ effScore a r c) ∧
    (calculate_efficiency_grade a r c = "A"
      ↔ 60 ≤ effScore a r c ∧ effScore a r c < 80) ∧
    (calculate_efficiency_grade a r c = "B"
      ↔ 40 ≤ effScore a r c ∧ effScore a r c < 60) ∧
    (calculate_efficiency_grade a r c = "C" ↔ effScore a r c < 40) ∧
    effScore 25000 320 600 = 100 ∧
    calculate_efficiency_grade 25000 320 600 = "S" := by
  refine ⟨rfl, ?_, ?_, ?_, ?_, ?_, ?_, ?_, ?_, ?_, ?_, ?_, ?_, ?_, ?_, ?_, ?_,
    gradeOfScore_S_iff _, gradeOfScore_A_iff _, gradeOfScore_B_iff _,
    gradeOfScore_C_iff _, ?_, ?_⟩
  · intro h
    unfold roasScore
    split_ifs <;> first | rfl | (exfalso; linarith)
  · rintro ⟨h1, h2⟩
    unfold roasScore
    split_ifs <;> first | rfl | (exfalso; linarith)
  · rintro ⟨h1, h2⟩
    unfold roasScore
    split_ifs <;> first | rfl | (exfalso; linarith)
  · rintro ⟨h1, h2⟩
    unfold roasScore
    split_ifs <;> first | rfl | (exfalso; linarith)
  · intro h
    unfold roasScore
    split_ifs <;> first | rfl | (exfalso; linarith)
  · intro h
    unfold convScore
    split_ifs <;> first | rfl | (exfalso; linarith)
  · rintro ⟨h1, h2⟩
    unfold convScore
    split_ifs <;> first | rfl | (exfalso; linarith)
  · rintro ⟨h1, h2⟩
    unfold convScore
    split_ifs <;> first | rfl | (exfalso; linarith)
  · rintro ⟨h1, h2⟩
    unfold convScore
    split_ifs <;> first | rfl | (exfalso; linarith)
  · intro h
    unfold convScore
    split_ifs <;> first | rfl | (exfalso; linarith)
  · intro h
    unfold cpaScore
    split_ifs <;> first | rfl | (exfalso; linarith)
  · rintro ⟨h1, h2⟩
    unfold cpaScore
    split_ifs <;> first | rfl | (exfalso; linarith)
  · rintro ⟨h1, h2⟩
    unfold cpaScore
    split_ifs <;> first | rfl | (exfalso; linarith)
  · rintro ⟨h1, h2⟩
    unfold cpaScore
    split_ifs <;> first | rfl | (exfalso; linarith)
  · rintro ⟨h1, h2⟩
    unfold cpaScore
    split_ifs <;> first | rfl | (exfalso; linarith)
  · intro h
    unfold cpaScore
    split_ifs <;> first | rfl | (exfalso; linarith)
  · norm_num [effScore, roasScore, convScore, cpaScore]
  · norm_num [calculate_efficiency_grade, gradeOfScore, effScore, roasScore,
      convScore, cpaScore]

/-- C8: the grade is monotone — with CPA positive, raising ROAS, raising
volume, or lowering CPA toward 0, jointly or separately, never lowers the
grade under the order S > A > B > C. -/
theorem c8_grade_monotone (a a' r r' c c' : ℚ)
    (ha' : 0 < a') (ha : a' ≤ a) (hr : r ≤ r') (hc : c ≤ c') :
    gradeRank (calculate_efficiency_grade a r c) ≤
      gradeRank (calculate_efficiency_grade a' r' c') := by
  unfold calculate_efficiency_grade
  apply gradeRank_gradeOfScore_mono
  unfold effScore
  have h1 := roasScore_mono hr
  have h2 := convScore_mono hc
  have h3 := cpaScore_anti ha' ha
  omega

/-- C8 witness: a concrete instance of the monotonicity theorem. -/
theorem c8_grade_monotone_witness :
    gradeRank (calculate_efficiency_grade 30000 100 50) ≤
      gradeRank (calculate_efficiency_grade 25000 320 600) :=
  c8_grade_monotone 30000 25000 100 320 50 600 (by norm_num) (by norm_num)
    (by norm_num) (by norm_num)

/-- C10 counterexample: at `budget = 10,000,000` (a tier boundary) the two
functions disagree — `calculate_budget_competition_factor` uses strict `<`
(factor 1.00 there) while `apply_budget_adjustment` uses `≤` (factor 0.90
there), so with `cpc = 100` the adjusted CPC is 90, not
`int(100 × 1.00) = 100`. -/
theorem c10_counterexample :
    apply_budget_adjustment 100 10000000 = 90 ∧
    pyInt (100 * calculate_budget_competition_factor 10000000) = 100 ∧
    apply_budget_adjustment 100 10000000
      ≠ pyInt (100 * calculate_budget_competition_factor 10000000) := by
  refine ⟨?_, ?_, ?_⟩ <;>
    norm_num [apply_budget_adjustment, calculate_budget_competition_factor, pyInt]

/-- C10 amended: `calculate_budget_competition_factor` returns 0.90 below
10M, 1.00 on [10M, 50M), 1.10 on [50M, 100M) and 1.20 from 100M up; and
`apply_budget_adjustment cpc budget = int(cpc × factor budget)` for every
budget other than exactly 10M, 50M and 100M — at those three boundaries
`apply_budget_adjustment` (inclusive `≤` tiers) takes the lower tier while
the factor function (strict `<` tiers) takes the upper one. -/
theorem c10_budget_tiers (budget cpc : ℚ) :
    (budget < 10000000 → calculate_budget_competition_factor budget = 0.90) ∧
    (10000000 ≤ budget ∧ budget < 50000000 →
      calculate_budget_competition_factor budget = 1.00) ∧
    (50000000 ≤ budget ∧ budget < 100000000 →
      calculate_budget_competition_factor budget = 1.10) ∧
    (100000000 ≤ budget → calculate_budget_competition_factor budget = 1.20) ∧
    (budget ≠ 10000000 → budget ≠ 50000000 → budget ≠ 100000000 →
      apply_budget_adjustment cpc budget
        = pyInt (cpc * calculate_budget_competition_factor budget)) := by
  refine ⟨?_, ?_, ?_, ?_, ?_⟩
  · intro h
    unfold calculate_budget_competition_factor
    split_ifs <;> first | rfl | (exfalso; linarith)
  · rintro ⟨h1, h2⟩
    unfold calculate_budget_competition_factor
    split_ifs <;> first | rfl | (exfalso; linarith)
  · rintro ⟨h1, h2⟩
    unfold calculate_budget_competition_factor
    split_ifs <;> first | rfl | (exfalso; linarith)
  · intro h
    unfold calculate_budget_competition_factor
    split_ifs <;> first | rfl | (exfalso; linarith)
  · intro h10 h50 h100
    by_cases h1 : budget < 10000000
    · simp only [apply_budget_adjustment, calculate_budget_competition_factor,
        if_pos h1, if_pos h1.le]
      norm_num
    · have h1' : 10000000 < budget :=
        lt_of_le_of_ne (not_lt.1 h1) (Ne.symm h10)
      by_cases h2 : budget < 50000000
      · simp only [apply_budget_adjustment, calculate_budget_competition_factor,
          if_neg h1, if_neg (not_le.2 h1'), if_pos h2, if_pos h2.le]
        norm_num
      · have h2' : 50000000 < budget :=
          lt_of_le_of_ne (not_lt.1 h2) (Ne.symm h50)
        by_cases h3 : budget < 100000000
        · simp only [apply_budget_adjustment, calculate_budget_competition_factor,
            if_neg h1, if_neg h2, if_neg (not_le.2 h1'), if_neg (not_le.2 h2'),
            if_pos h3, if_pos h3.le]
          norm_num
        · have h3' : 100000000 < budget :=
            lt_of_le_of_ne (not_lt.1 h3) (Ne.symm h100)
          simp only [apply_budget_adjustment, calculate_budget_competition_factor,
            if_neg h1, if_neg h2, if_neg h3, if_neg (not_le.2 h1'),
            if_neg (not_le.2 h2'), if_neg (not_le.2 h3')]
          norm_num

/-! Helper lemmas about the performance calculators. -/

lemma calc_perf_error_iff (budget : ℚ) (m : AdjustedMetrics) :
    (∃ msg, calculate_performance budget m = .error msg)
      ↔ m.CPC ≤ 0 ∨ m.CTR ≤ 0 ∨ m.CVR < 0 ∨ budget ≤ 0 := by
  unfold calculate_performance
  split_ifs with h1 h2 h3 h4 <;> simp_all

lemma calc_media_error_iff (media : Media) (tb : ℚ) :
    (∃ msg, calculate_media_performance media tb = .error msg)
      ↔ tb ≤ 0 ∨ media.budget_ratio < 0 ∨ media.cpc ≤ 0 ∨ media.ctr ≤ 0 := by
  unfold calculate_media_performance
  split_ifs with h1 h2 h3 h4 <;> simp_all

lemma calc_media_ok_fields {media : Media} {tb : ℚ} {r : MediaResult}
    (h : calculate_media_performance media tb = .ok r) :
    r.name = media.name ∧ r.budget_ratio = media.budget_ratio ∧
    r.media_budget = tb * (media.budget_ratio / 100) ∧
    r.estimated_clicks = r.media_budget / media.cpc ∧
    r.estimated_impressions = r.estimated_clicks / (media.ctr / 100) ∧
    r.estimated_conversions = r.estimated_clicks * (media.cvr / 100) ∧
    r.cpa = (if 0 < r.estimated_conversions
             then r.media_budget / r.estimated_conversions else 0) ∧
    r.estimated_conversions_adjusted
      = r.estimated_conversions * (1 + media.adjustment / 100) ∧
    r.revenue_per_cv = media.revenue_per_cv := by
  unfold calculate_media_performance at h
  by_cases h1 : tb ≤ 0
  · rw [if_pos h1] at h
    exact absurd h (by simp)
  rw [if_neg h1] at h
  by_cases h2 : media.budget_ratio < 0
  · rw [if_pos h2] at h
    exact absurd h (by simp)
  rw [if_neg h2] at h
  by_cases h3 : media.cpc ≤ 0
  · rw [if_pos h3] at h
    exact absurd h (by simp)
  rw [if_neg h3] at h
  by_cases h4 : media.ctr ≤ 0
  · rw [if_pos h4] at h
    exact absurd h (by simp)
  rw [if_neg h4] at h
  simp only [Except.ok.injEq] at h
  subst h
  exact ⟨rfl, rfl, rfl, rfl, rfl, rfl, rfl, rfl, rfl⟩

/-- C6: `calculate_performance` fails with an invalid-metric error exactly
when `cpc ≤ 0`, `ctr ≤ 0`, `cvr < 0` or `budget ≤ 0`; on every valid input
it returns normally, and a zero conversion count yields `cpa = 0` rather
than an error or an undefined ratio. -/
theorem c6_perf_error_policy (budget : ℚ) (m : AdjustedMetrics) :
    ((∃ msg, calculate_performance budget m = .error msg)
      ↔ m.CPC ≤ 0 ∨ m.CTR ≤ 0 ∨ m.CVR < 0 ∨ budget ≤ 0) ∧
    (¬(m.CPC ≤ 0 ∨ m.CTR ≤ 0 ∨ m.CVR < 0 ∨ budget ≤ 0) →
      ∃ r, calculate_performance budget m = .ok r) ∧
    (∀ r, calculate_performance budget m = .ok r →
      perfConversions budget m = 0 → r.cpa = 0) := by
  refine ⟨calc_perf_error_iff budget m, ?_, ?_⟩
  · intro h
    push_neg at h
    obtain ⟨h1, h2, h3, h4⟩ := h
    refine ⟨{ impressions := pyRound (perfImpressions budget m) 0
              clicks := pyRound (perfClicks budget m) 0
              conversions := pyRound (perfConversions budget m) 2
              cpa := pyRound (perfCpa budget m) 0
              ctr := pyRound (m.CTR * 100) 2
              cvr := pyRound (m.CVR * 100) 2
              cpc := pyRound m.CPC 0 }, ?_⟩
    unfold calculate_performance
    rw [if_neg (not_le.2 h1), if_neg (not_le.2 h2), if_neg (not_lt.2 h3),
      if_neg (not_le.2 h4)]
  · intro r h hconv
    unfold calculate_performance at h
    by_cases h1 : m.CPC ≤ 0
    · rw [if_pos h1] at h
      exact absurd h (by simp)
    rw [if_neg h1] at h
    by_cases h2 : m.CTR ≤ 0
    · rw [if_pos h2] at h
      exact absurd h (by simp)
    rw [if_neg h2] at h
    by_cases h3 : m.CVR < 0
    · rw [if_pos h3] at h
      exact absurd h (by simp)
    rw [if_neg h3] at h
    by_cases h4 : budget ≤ 0
    · rw [if_pos h4] at h
      exact absurd h (by simp)
    rw [if_neg h4] at h
    simp only [Except.ok.injEq] at h
    subst h
    show pyRound (perfCpa budget m) 0 = 0
    unfold perfCpa
    rw [hconv]
    norm_num [pyRound, roundHalfEven]

lemma calc_perf_ok (budget : ℚ) (m : AdjustedMetrics)
    (h1 : 0 < m.CPC) (h2 : 0 < m.CTR) (h3 : 0 ≤ m.CVR) (h4 : 0 < budget) :
    calculate_performance budget m = .ok
      { impressions := pyRound (perfImpressions budget m) 0
        clicks := pyRound (perfClicks budget m) 0
        conversions := pyRound (perfConversions budget m) 2
        cpa := pyRound (perfCpa budget m) 0
        ctr := pyRound (m.CTR * 100) 2
        cvr := pyRound (m.CVR * 100) 2
        cpc := pyRound m.CPC 0 } := by
  unfold calculate_performance
  rw [if_neg (not_le.2 h1), if_neg (not_le.2 h2), if_neg (not_lt.2 h3),
    if_neg (not_le.2 h4)]

lemma calc_media_ok_exists (media : Media) (tb : ℚ)
    (h1 : ¬tb ≤ 0) (h2 : ¬media.budget_ratio < 0)
    (h3 : ¬media.cpc ≤ 0) (h4 : ¬media.ctr ≤ 0) :
    ∃ r, calculate_media_performance media tb = .ok r := by
  unfold calculate_media_performance
  rw [if_neg h1, if_neg h2, if_neg h3, if_neg h4]
  exact ⟨_, rfl⟩

/-- C1: on every valid input (`cpc > 0`, `ctr > 0`, `cvr ≥ 0`,
`budget > 0`), `calculate_performance` returns the funnel
`clicks = budget/cpc`, `impressions = clicks/ctr`,
`conversions = clicks×cvr`, `cpa = budget/conversions` when
`conversions > 0` and 0 otherwise (each rounded only at the output
boundary), with `cpa × conversions = budget` whenever `conversions > 0`;
and `calculate_media_performance` computes the same funnel from
`media_budget = total_budget × budget_ratio/100` with `ctr` and `cvr`
given in percent. -/
theorem c1_funnel_identities :
    (∀ (budget : ℚ) (m : AdjustedMetrics),
      0 < m.CPC → 0 < m.CTR → 0 ≤ m.CVR → 0 < budget →
      ∃ r, calculate_performance budget m = .ok r ∧
        perfClicks budget m = budget / m.CPC ∧
        perfImpressions budget m = perfClicks budget m / m.CTR ∧
        perfConversions budget m = perfClicks budget m * m.CVR ∧
        perfCpa budget m
          = (if 0 < perfConversions budget m
             then budget / perfConversions budget m else 0) ∧
        r.clicks = pyRound (perfClicks budget m) 0 ∧
        r.impressions = pyRound (perfImpressions budget m) 0 ∧
        r.conversions = pyRound (perfConversions budget m) 2 ∧
        r.cpa = pyRound (perfCpa budget m) 0 ∧
        (0 < perfConversions budget m →
          perfCpa budget m * perfConversions budget m = budget)) ∧
    (∀ (media : Media) (tb : ℚ) (r : MediaResult),
      calculate_media_performance media tb = .ok r →
        r.media_budget = tb * (media.budget_ratio / 100) ∧
        r.estimated_clicks = r.media_budget / media.cpc ∧
        r.estimated_impressions = r.estimated_clicks / (media.ctr / 100) ∧
        r.estimated_conversions = r.estimated_clicks * (media.cvr / 100) ∧
        r.cpa = (if 0 < r.estimated_conversions
                 then r.media_budget / r.estimated_conversions else 0) ∧
        (0 < r.estimated_conversions →
          r.cpa * r.estimated_conversions = r.media_budget)) := by
  constructor
  · intro budget m h1 h2 h3 h4
    refine ⟨_, calc_perf_ok budget m h1 h2 h3 h4,
      rfl, rfl, rfl, rfl, rfl, rfl, rfl, rfl, ?_⟩
    intro hc
    unfold perfCpa
    rw [if_pos hc]
    exact div_mul_cancel₀ budget (ne_of_gt hc)
  · intro media tb r h
    obtain ⟨-, -, f3, f4, f5, f6, f7, -, -⟩ := calc_media_ok_fields h
    refine ⟨f3, f4, f5, f6, f7, ?_⟩
    intro hc
    rw [f7, if_pos hc]
    exact div_mul_cancel₀ _ (ne_of_gt hc)

/-- C1 witness: the theorem applied at `budget = 100`,
`CTR = 1, CPC = 2, CVR = 1`. -/
theorem c1_funnel_identities_witness :
    ∃ r, calculate_performance 100 { CTR := 1, CPC := 2, CVR := 1 } = .ok r ∧
      perfCpa 100 { CTR := 1, CPC := 2, CVR := 1 } *
        perfConversions 100 { CTR := 1, CPC := 2, CVR := 1 } = 100 := by
  obtain ⟨r, hok, -, -, -, -, -, -, -, -, hmul⟩ :=
    c1_funnel_identities.1 100 { CTR := 1, CPC := 2, CVR := 1 }
      (by norm_num) (by norm_num) (by norm_num) (by norm_num)
  have hc : (0 : ℚ) < perfConversions 100 { CTR := 1, CPC := 2, CVR := 1 } := by
    norm_num [perfConversions, perfClicks]
  exact ⟨r, hok, hmul hc⟩

/-- C7 counterexample: a channel with `budget_ratio = 0` has media budget
`total_budget × 0/100 = 0`, yet `calculate_media_performance` accepts it
and returns a computed result with `media_budget = 0` instead of failing
with an invalid-budget error. -/
theorem c7_counterexample :
    ∃ r, calculate_media_performance
        { name := "m", category := "SA", budget_ratio := 0, cpc := 1, ctr := 1,
          cvr := 1, revenue_per_cv := 0, adjustment := 0 } 100 = .ok r ∧
      r.media_budget = 0 := by
  obtain ⟨r, hr⟩ := calc_media_ok_exists
    { name := "m", category := "SA", budget_ratio := 0, cpc := 1, ctr := 1,
      cvr := 1, revenue_per_cv := 0, adjustment := 0 } 100
    (by norm_num) (by norm_num) (by norm_num) (by norm_num)
  refine ⟨r, hr, ?_⟩
  rw [(calc_media_ok_fields hr).2.2.1]
  norm_num

/-- C7 amended: `calculate_media_performance` fails exactly when the total
budget is ≤ 0, the budget ratio is negative, `cpc ≤ 0` or `ctr ≤ 0`; a
channel whose media budget is 0 because `budget_ratio = 0` is computed
(with `media_budget = 0`), not rejected. -/
theorem c7_invalid_budget_policy (media : Media) (tb : ℚ) :
    ((∃ msg, calculate_media_performance media tb = .error msg)
      ↔ tb ≤ 0 ∨ media.budget_ratio < 0 ∨ media.cpc ≤ 0 ∨ media.ctr ≤ 0) ∧
    (∀ r, calculate_media_performance media tb = .ok r →
      media.budget_ratio = 0 → r.media_budget = 0) := by
  refine ⟨calc_media_error_iff media tb, ?_⟩
  intro r h hz
  rw [(calc_media_ok_fields h).2.2.1, hz]
  norm_num

/-- C5: `apply_adjustments` scales CTR and CVR by the seasonal factor and
CPC by the budget-competition factor only; the seasonal factor is the
common table value for the month times the industry's high (resp. low)
multiplier when the month is in the respective set, defaulting to 1.0 on
an unknown month or industry without raising. -/
theorem c5_apply_adjustments (sc : ℕ → Option ℚ)
    (iw : String → Option IndustrySeason) (industry : String) (month : ℕ)
    (budget : ℚ) (base : AdjustedMetrics) :
    (apply_adjustments sc iw industry month budget base).CTR
      = base.CTR * calculate_seasonality sc iw month industry ∧
    (apply_adjustments sc iw industry month budget base).CVR
      = base.CVR * calculate_seasonality sc iw month industry ∧
    (apply_adjustments sc iw industry month budget base).CPC
      = base.CPC * calculate_budget_competition_factor budget ∧
    (iw industry = none →
      calculate_seasonality sc iw month industry = (sc month).getD 1) ∧
    (∀ w, iw industry = some w →
      (month ∈ w.high_months →
        calculate_seasonality sc iw month industry
          = (sc month).getD 1 * w.high_multiplier) ∧
      (month ∉ w.high_months → month ∈ w.low_months →
        calculate_seasonality sc iw month industry
          = (sc month).getD 1 * w.low_multiplier) ∧
      (month ∉ w.high_months → month ∉ w.low_months →
        calculate_seasonality sc iw month industry = (sc month).getD 1)) ∧
    (sc month = none → iw industry = none →
      calculate_seasonality sc iw month industry = 1) := by
  refine ⟨rfl, rfl, rfl, ?_, ?_, ?_⟩
  · intro hiw
    unfold calculate_seasonality
    rw [hiw]
  · intro w hiw
    refine ⟨?_, ?_, ?_⟩
    · intro hhi
      unfold calculate_seasonality
      rw [hiw]
      simp [hhi]
    · intro hhi hlo
      unfold calculate_seasonality
      rw [hiw]
      simp [hhi, hlo]
    · intro hhi hlo
      unfold calculate_seasonality
      rw [hiw]
      simp [hhi, hlo]
  · intro hsc hiw
    unfold calculate_seasonality
    rw [hiw, hsc]
    rfl

/-- C3: for every successfully computed channel, the conservative and
aggressive scenarios carry `conversions_adjusted` scaled by `1 ∓ s/100`
relative to the base entry, and re-derive `cpa_adjusted`,
`total_revenue_adjusted` and `roas_adjusted` from the new conversions
value over the unchanged `media_budget` and `revenue_per_cv`. -/
theorem c3_scenario_identity (ms : List Media) (tb s : ℚ) (i : ℕ) (m : Media)
    (r : MediaResult) (hm : ms[i]? = some m)
    (hr : calculate_media_performance m tb = .ok r) :
    (generate_scenarios ms tb s).base[i]? = some (.ok r) ∧
    (generate_scenarios ms tb s).conservative[i]?
      = some (.ok (conservativeOf r s)) ∧
    (generate_scenarios ms tb s).aggressive[i]?
      = some (.ok (aggressiveOf r s)) ∧
    (conservativeOf r s).estimated_conversions_adjusted
      = r.estimated_conversions_adjusted * (1 - s / 100) ∧
    (conservativeOf r s).media_budget = r.media_budget ∧
    (conservativeOf r s).revenue_per_cv = r.revenue_per_cv ∧
    (conservativeOf r s).cpa_adjusted
      = (if 0 < (conservativeOf r s).estimated_conversions_adjusted
         then r.media_budget / (conservativeOf r s).estimated_conversions_adjusted
         else 0) ∧
    (conservativeOf r s).total_revenue_adjusted
      = (conservativeOf r s).estimated_conversions_adjusted * r.revenue_per_cv ∧
    (conservativeOf r s).roas_adjusted
      = (if 0 < r.media_budget
         then (conservativeOf r s).total_revenue_adjusted / r.media_budget * 100
         else 0) ∧
    (aggressiveOf r s).estimated_conversions_adjusted
      = r.estimated_conversions_adjusted * (1 + s / 100) ∧
    (aggressiveOf r s).media_budget = r.media_budget ∧
    (aggressiveOf r s).revenue_per_cv = r.revenue_per_cv ∧
    (aggressiveOf r s).cpa_adjusted
      = (if 0 < (aggressiveOf r s).estimated_conversions_adjusted
         then r.media_budget / (aggressiveOf r s).estimated_conversions_adjusted
         else 0) ∧
    (aggressiveOf r s).total_revenue_adjusted
      = (aggressiveOf r s).estimated_conversions_adjusted * r.revenue_per_cv ∧
    (aggressiveOf r s).roas_adjusted
      = (if 0 < r.media_budget
         then (aggressiveOf r s).total_revenue_adjusted / r.media_budget * 100
         else 0) := by
  have hp : processMedia tb s m
      = (.ok r, .ok (conservativeOf r s), .ok (aggressiveOf r s)) := by
    unfold processMedia
    rw [hr]
  refine ⟨?_, ?_, ?_, rfl, rfl, rfl, rfl, rfl, rfl, rfl, rfl, rfl, rfl, rfl, rfl⟩
  · simp [generate_scenarios, List.getElem?_map, hm, hp]
  · simp [generate_scenarios, List.getElem?_map, hm, hp]
  · simp [generate_scenarios, List.getElem?_map, hm, hp]

/-- C3 witness: the theorem applied to one concrete channel. -/
theorem c3_scenario_identity_witness :
    (generate_scenarios
      [{ name := "m", category := "SA", budget_ratio := 100, cpc := 1,
         ctr := 100, cvr := 100, revenue_per_cv := 1, adjustment := 0 }]
      100 10).base[0]?
      = some (.ok
        { name := "m", category := "SA", budget_ratio := 100, cpc := 1,
          ctr := 100, cvr := 100, revenue_per_cv := 1, adjustment := 0,
          media_budget := 100, estimated_impressions := 100,
          estimated_clicks := 100, cpm := 1000, estimated_conversions := 100,
          estimated_conversions_adjusted := 100, cpa := 1, cpa_adjusted := 1,
          total_revenue := 100, total_revenue_adjusted := 100, roas := 100,
          roas_adjusted := 100 }) := by
  have hr : calculate_media_performance
      { name := "m", category := "SA", budget_ratio := 100, cpc := 1,
        ctr := 100, cvr := 100, revenue_per_cv := 1, adjustment := 0 } 100
      = .ok
        { name := "m", category := "SA", budget_ratio := 100, cpc := 1,
          ctr := 100, cvr := 100, revenue_per_cv := 1, adjustment := 0,
          media_budget := 100, estimated_impressions := 100,
          estimated_clicks := 100, cpm := 1000, estimated_conversions := 100,
          estimated_conversions_adjusted := 100, cpa := 1, cpa_adjusted := 1,
          total_revenue := 100, total_revenue_adjusted := 100, roas := 100,
          roas_adjusted := 100 } := by
    norm_num [calculate_media_performance]
  exact (c3_scenario_identity _ 100 10 0 _ _ rfl hr).1

lemma errorKeys_ne_resultKeys : ErrorMedia.keys ≠ MediaResult.keys := by
  decide

/-- C2 counterexample: with one valid and one failing channel, the batch
still yields one base entry per channel, but the failing channel's
placeholder does not have the same field set as the successfully computed
entry — the placeholder lacks `cpa`, `total_revenue`, `roas` and
`adjustment` and adds `error` and `error_message`. -/
theorem c2_counterexample :
    ∃ e0 e1,
      (generate_scenarios
        [{ name := "good", category := "SA", budget_ratio := 100, cpc := 1,
           ctr := 100, cvr := 100, revenue_per_cv := 1, adjustment := 0 },
         { name := "bad", category := "SA", budget_ratio := 100, cpc := 0,
           ctr := 100, cvr := 100, revenue_per_cv := 1, adjustment := 0 }]
        100 10).base = [e0, e1] ∧
      e0.isErr = false ∧ e1.isErr = true ∧ e0.keys ≠ e1.keys ∧
      "cpa" ∈ e0.keys ∧ "cpa" ∉ e1.keys ∧
      "error" ∈ e1.keys ∧ "error" ∉ e0.keys := by
  obtain ⟨r, hr⟩ := calc_media_ok_exists
    { name := "good", category := "SA", budget_ratio := 100, cpc := 1,
      ctr := 100, cvr := 100, revenue_per_cv := 1, adjustment := 0 } 100
    (by norm_num) (by norm_num) (by norm_num) (by norm_num)
  have hb : calculate_media_performance
      { name := "bad", category := "SA", budget_ratio := 100, cpc := 0,
        ctr := 100, cvr := 100, revenue_per_cv := 1, adjustment := 0 } 100
      = .error "CPC must be greater than 0" := by
    norm_num [calculate_media_performance]
  have hpg : processMedia 100 10
      { name := "good", category := "SA", budget_ratio := 100, cpc := 1,
        ctr := 100, cvr := 100, revenue_per_cv := 1, adjustment := 0 }
      = (.ok r, .ok (conservativeOf r 10), .ok (aggressiveOf r 10)) := by
    unfold processMedia
    rw [hr]
  have hpb : processMedia 100 10
      { name := "bad", category := "SA", budget_ratio := 100, cpc := 0,
        ctr := 100, cvr := 100, revenue_per_cv := 1, adjustment := 0 }
      = (.err (errorMediaOf
          { name := "bad", category := "SA", budget_ratio := 100, cpc := 0,
            ctr := 100, cvr := 100, revenue_per_cv := 1, adjustment := 0 }
          "CPC must be greater than 0"),
         .err (errorMediaOf
          { name := "bad", category := "SA", budget_ratio := 100, cpc := 0,
            ctr := 100, cvr := 100, revenue_per_cv := 1, adjustment := 0 }
          "CPC must be greater than 0"),
         .err (errorMediaOf
          { name := "bad", category := "SA", budget_ratio := 100, cpc := 0,
            ctr := 100, cvr := 100, revenue_per_cv := 1, adjustment := 0 }
          "CPC must be greater than 0")) := by
    unfold processMedia
    rw [hb]
  refine ⟨.ok r,
    .err (errorMediaOf
      { name := "bad", category := "SA", budget_ratio := 100, cpc := 0,
        ctr := 100, cvr := 100, revenue_per_cv := 1, adjustment := 0 }
      "CPC must be greater than 0"), ?_, rfl, rfl, ?_, ?_, ?_, ?_, ?_⟩
  · simp [generate_scenarios, hpg, hpb]
  · exact fun h => errorKeys_ne_resultKeys h.symm
  · show "cpa" ∈ MediaResult.keys
    decide
  · decide
  · decide
  · show "error" ∉ MediaResult.keys
    decide

/-- C2 amended: `generate_scenarios` is total and returns one entry per
input channel, in input order, in each of the three lists; a channel whose
computation fails is replaced in all three by the same zeroed,
error-flagged placeholder — but the placeholder's field set is not
identical to a computed result's: it omits `cpa`, `total_revenue`, `roas`
and the channel's `adjustment` key and adds `error` and `error_message`. -/
theorem c2_batch_isolation :
    (∀ (ms : List Media) (tb s : ℚ),
      (generate_scenarios ms tb s).base.length = ms.length ∧
      (generate_scenarios ms tb s).conservative.length = ms.length ∧
      (generate_scenarios ms tb s).aggressive.length = ms.length) ∧
    (∀ (ms : List Media) (tb s : ℚ) (i : ℕ) (m : Media) (msg : String),
      ms[i]? = some m → calculate_media_performance m tb = .error msg →
      (generate_scenarios ms tb s).base[i]?
        = some (.err (errorMediaOf m msg)) ∧
      (generate_scenarios ms tb s).conservative[i]?
        = some (.err (errorMediaOf m msg)) ∧
      (generate_scenarios ms tb s).aggressive[i]?
        = some (.err (errorMediaOf m msg)) ∧
      (errorMediaOf m msg).error = true ∧
      (errorMediaOf m msg).name = m.name ∧
      (errorMediaOf m msg).budget_ratio = m.budget_ratio ∧
      (errorMediaOf m msg).media_budget = 0 ∧
      (errorMediaOf m msg).cpm = 0 ∧
      (errorMediaOf m msg).estimated_impressions = 0 ∧
      (errorMediaOf m msg).estimated_clicks = 0 ∧
      (errorMediaOf m msg).estimated_conversions = 0 ∧
      (errorMediaOf m msg).estimated_conversions_adjusted = 0 ∧
      (errorMediaOf m msg).cpa_adjusted = 0 ∧
      (errorMediaOf m msg).total_revenue_adjusted = 0 ∧
      (errorMediaOf m msg).roas_adjusted = 0 ∧
      (ScenarioEntry.err (errorMediaOf m msg)).keys = ErrorMedia.keys) ∧
    (∀ (ms : List Media) (tb s : ℚ) (i : ℕ) (m : Media) (r : MediaResult),
      ms[i]? = some m → calculate_media_performance m tb = .ok r →
      (generate_scenarios ms tb s).base[i]? = some (.ok r) ∧
      (generate_scenarios ms tb s).conservative[i]?
        = some (.ok (conservativeOf r s)) ∧
      (generate_scenarios ms tb s).aggressive[i]?
        = some (.ok (aggressiveOf r s))) ∧
    (ErrorMedia.keys ≠ MediaResult.keys ∧
      "cpa" ∈ MediaResult.keys ∧ "cpa" ∉ ErrorMedia.keys ∧
      "total_revenue" ∈ MediaResult.keys ∧ "total_revenue" ∉ ErrorMedia.keys ∧
      "roas" ∈ MediaResult.keys ∧ "roas" ∉ ErrorMedia.keys ∧
      "adjustment" ∈ MediaResult.keys ∧ "adjustment" ∉ ErrorMedia.keys ∧
      "error" ∈ ErrorMedia.keys ∧ "error" ∉ MediaResult.keys ∧
      "error_message" ∈ ErrorMedia.keys ∧
      "error_message" ∉ MediaResult.keys) := by
  refine ⟨?_, ?_, ?_, by decide⟩
  · intro ms tb s
    refine ⟨?_, ?_, ?_⟩ <;> simp [generate_scenarios]
  · intro ms tb s i m msg hm herr
    have hp : processMedia tb s m
        = (.err (errorMediaOf m msg), .err (errorMediaOf m msg),
           .err (errorMediaOf m msg)) := by
      unfold processMedia
      rw [herr]
    refine ⟨?_, ?_, ?_, rfl, rfl, rfl, rfl, rfl, rfl, rfl, rfl, rfl, rfl,
      rfl, rfl, rfl⟩ <;>
      simp [generate_scenarios, List.getElem?_map, hm, hp]
  · intro ms tb s i m r hm hok
    have hp : processMedia tb s m
        = (.ok r, .ok (conservativeOf r s), .ok (aggressiveOf r s)) := by
      unfold processMedia
      rw [hok]
    refine ⟨?_, ?_, ?_⟩ <;>
      simp [generate_scenarios, List.getElem?_map, hm, hp]

/-- C2 witness: the amended isolation theorem applied to a concrete
failing channel. -/
theorem c2_batch_isolation_witness :
    (generate_scenarios
      [{ name := "bad", category := "SA", budget_ratio := 100, cpc := 0,
         ctr := 100, cvr := 100, revenue_per_cv := 1, adjustment := 0 }]
      100 10).base[0]?
      = some (.err (errorMediaOf
          { name := "bad", category := "SA", budget_ratio := 100, cpc := 0,
            ctr := 100, cvr := 100, revenue_per_cv := 1, adjustment := 0 }
          "CPC must be greater than 0")) := by
  have hb : calculate_media_performance
      { name := "bad", category := "SA", budget_ratio := 100, cpc := 0,
        ctr := 100, cvr := 100, revenue_per_cv := 1, adjustment := 0 } 100
      = .error "CPC must be greater than 0" := by
    norm_num [calculate_media_performance]
  exact (c2_batch_isolation.2.1 _ 100 10 0 _ _ rfl hb).1

/-! Helper lemmas for the recommendation engine. -/

lemma filter_false_nil {α : Type} {p : α → Bool} {l : List α}
    (h : ∀ x ∈ l, p x = false) : l.filter p = [] := by
  induction l with
  | nil => rfl
  | cons a t ih =>
      have ha := h a (by simp)
      rw [List.filter_cons, if_neg (by simp [ha])]
      exact ih fun x hx => h x (by simp [hx])

lemma shiftRule_not_conc (md sm : List ScenarioEntry) (b : ℚ) :
    ∀ x ∈ shiftRule md sm b, x.isConcentration = false := by
  intro x hx
  rcases sm with _ | ⟨best, _ | ⟨m1, rest⟩⟩
  · simp [shiftRule] at hx
  · simp [shiftRule] at hx
  · simp only [shiftRule] at hx
    split_ifs at hx <;> simp_all [Rec.isConcentration]

lemma scaleRule_not_conc (sm : List ScenarioEntry) (b : ℚ) :
    ∀ x ∈ scaleRule sm b, x.isConcentration = false := by
  intro x hx
  simp only [scaleRule, List.mem_filterMap] at hx
  obtain ⟨a, -, ha⟩ := hx
  split_ifs at ha <;>
    first
      | (injection ha with ha; subst ha; rfl)
      | exact absurd ha (by simp)

lemma lowRoasRule_not_conc (md : List ScenarioEntry) :
    ∀ x ∈ lowRoasRule md, x.isConcentration = false := by
  intro x hx
  simp only [lowRoasRule, List.mem_map] at hx
  obtain ⟨a, -, rfl⟩ := hx
  rfl

lemma volumeRule_not_conc (md : List ScenarioEntry) (b : ℚ) :
    ∀ x ∈ volumeRule md b, x.isConcentration = false := by
  intro x hx
  simp only [volumeRule] at hx
  split_ifs at hx <;> simp_all [Rec.isConcentration]

lemma concentrationRule_filter (md : List ScenarioEntry) :
    (concentrationRule md).filter Rec.isConcentration = concentrationRule md := by
  rw [List.filter_eq_self]
  intro x hx
  simp only [concentrationRule, List.mem_map] at hx
  obtain ⟨a, -, rfl⟩ := hx
  rfl

lemma gen_recs_conc_filter (S : Scenarios) (budget : ℚ) :
    (generate_recommendations S budget).filter Rec.isConcentration
      = concentrationRule S.base := by
  simp only [generate_recommendations]
  split_ifs with hb
  · rw [hb]
    rfl
  · simp only [List.filter_append]
    rw [filter_false_nil (shiftRule_not_conc _ _ _),
      filter_false_nil (scaleRule_not_conc _ _),
      concentrationRule_filter,
      filter_false_nil (lowRoasRule_not_conc _),
      filter_false_nil (volumeRule_not_conc _ _)]
    simp

lemma processMedia_base_ratio (tb s : ℚ) (m : Media) :
    ((processMedia tb s m).1).getBudgetRatio = m.budget_ratio := by
  rcases h : calculate_media_performance m tb with msg | r
  · simp [processMedia, h, ScenarioEntry.getBudgetRatio, errorMediaOf]
  · simp [processMedia, h, ScenarioEntry.getBudgetRatio,
      (calc_media_ok_fields h).2.1]

lemma processMedia_base_name (tb s : ℚ) (m : Media) :
    ((processMedia tb s m).1).getName = m.name := by
  rcases h : calculate_media_performance m tb with msg | r
  · simp [processMedia, h, ScenarioEntry.getName, errorMediaOf]
  · simp [processMedia, h, ScenarioEntry.getName, (calc_media_ok_fields h).1]

/-- C9: `generate_recommendations` emits a concentration-risk dependency
warning for exactly the base-scenario channels whose `budget_ratio`
exceeds the threshold 50, in list order; with two channels at 60 and 40
exactly one warning fires, for the 60 channel. -/
theorem c9_concentration_risk :
    (∀ (S : Scenarios) (budget : ℚ),
      (generate_recommendations S budget).filter Rec.isConcentration
        = (S.base.filter fun m => RISK_RATIO_THRESHOLD < m.getBudgetRatio).map
            fun m => Rec.concentrationWarning m.getName m.getBudgetRatio) ∧
    (generate_recommendations
        (generate_scenarios
          [{ name := "A", category := "SA", budget_ratio := 60, cpc := 1,
             ctr := 100, cvr := 100, revenue_per_cv := 1, adjustment := 0 },
           { name := "B", category := "SA", budget_ratio := 40, cpc := 1,
             ctr := 100, cvr := 100, revenue_per_cv := 1, adjustment := 0 }]
          100 10) 100).filter Rec.isConcentration
      = [Rec.concentrationWarning "A" 60] := by
  refine ⟨fun S b => gen_recs_conc_filter S b, ?_⟩
  rw [gen_recs_conc_filter]
  show concentrationRule (List.map _ _) = _
  rw [List.map_cons, List.map_cons, List.map_nil]
  unfold concentrationRule RISK_RATIO_THRESHOLD
  rw [List.filter_cons, List.filter_cons]
  rw [if_pos (by rw [decide_eq_true_eq, processMedia_base_ratio]; norm_num),
    if_neg (by rw [decide_eq_true_eq, processMedia_base_ratio]; norm_num)]
  rw [List.filter_nil, List.map_cons, List.map_nil,
    processMedia_base_ratio, processMedia_base_name]

end MediaMix
